import Mathlib

/-!
Verification of the core relay mechanism of the Figma Relay Server
(`src/server.js`, v5.5, and the earlier v3.0 dispatcher in
`src/unnamed/part_000`).

The JavaScript source is shallowly embedded: JS `Map`s become association
lists keyed by `String`, the `Set` of websocket clients becomes a list of
`Conn` records, promise callbacks become `Invocation` records emitted by the
table operations, and `setTimeout`/`clearTimeout` become an `armed` list of
request identifiers (a timer can only fire while it is armed; `clearTimeout`
removes the identifier from `armed`).  `JSON.parse` failure is modelled by
the dispatcher receiving `none`; `JSON.stringify` is a parameter
`stringify : Msg → String` wherever only the identity of the serialized
bytes matters, with a concrete `stringifyModel` for closed evaluations.
JS truthiness of optional string fields (`data.requestId && …`,
`data.error || …`) is modelled explicitly: `none` and `some ""` are falsy.
-/

namespace FigmaRelay

/-- A parsed wire message, with exactly the fields the v5.5 message handler
reads (`data.type`, `data.requestId`, `data.success`, `data.error`,
`data.selection`, `data.nodeCount`, `data.variables`, `data.fileKey`,
`data.fileName`, `data.collectionCount`, `data.frames`).  Payloads the relay
never inspects (`selection`, the elements of `variables` and `frames`) are
kept opaque as strings. -/
structure Msg where
  type : String
  requestId : Option String := none
  success : Bool := false
  error : Option String := none
  selection : String := ""
  nodeCount : Option Nat := none
  varsData : Option (List String) := none
  fileKey : Option String := none
  fileName : Option String := none
  collectionCount : Option Nat := none
  frames : Option (List String) := none
deriving DecidableEq, Repr

/-- JS truthiness for an optional string field: `undefined` and `""` are
falsy, every other string is truthy. -/
def truthy : Option String → Option String
  | none => none
  | some s => if s = "" then none else some s

/-- One websocket client as the registry sees it: its `clientId` (assigned at
accept time, process-unique) and its `readyState` (`1` = OPEN). -/
structure Conn where
  clientId : String
  readyState : Nat
deriving DecidableEq, Repr

/-- A value stored in `selectionCache`: `{ timestamp: Date.now(), data:
data.selection, nodeCount: data.nodeCount || 0 }`. -/
structure SelEntry where
  timestamp : Nat
  data : String
  nodeCount : Nat
deriving DecidableEq, Repr

/-- A value stored in `variablesCache` (v5.2): `{ timestamp, variables:
data.variables || [], fileKey: data.fileKey || null, fileName:
data.fileName || null, collectionCount: data.collectionCount || 0 }`. -/
structure VarEntry where
  timestamp : Nat
  varsList : List String
  fileKey : Option String
  fileName : Option String
  collectionCount : Nat
deriving DecidableEq, Repr

/-- `Map.set k v`: replace the binding of `k` in place if present, else
append a fresh binding (JS `Map` insertion-order semantics). -/
def mapSet (k : String) (v : α) : List (String × α) → List (String × α)
  | [] => [(k, v)]
  | (k', v') :: rest => if k' = k then (k, v) :: rest else (k', v') :: mapSet k v rest

/-- `Map.get k`: the value bound to `k`, if any. -/
def mapGet (k : String) : List (String × α) → Option α
  | [] => none
  | (k', v) :: rest => if k' = k then some v else mapGet k rest

/-- `Map.delete k`: drop the binding of `k`. -/
def mapDelete (k : String) (m : List (String × α)) : List (String × α) :=
  m.filter (fun p => p.1 ≠ k)

/-- Remove a request identifier from a key list (`Map.delete` /
`clearTimeout` on the identifier-keyed pending table). -/
def eraseId (rid : String) (l : List String) : List String :=
  l.filter (fun x => x ≠ rid)

/-- Insert a request identifier if absent (`Map.set` on a table where only
the keys matter to the correlation logic). -/
def insertId (rid : String) (l : List String) : List String :=
  if rid ∈ l then l else l ++ [rid]

/-- The state of `pendingRequests` plus its timers: `pending` holds the
identifiers present as keys of the `pendingRequests` map, `armed` holds the
identifiers whose `setTimeout` timer has neither fired nor been cleared. -/
structure PendingState where
  pending : List String
  armed : List String
deriving DecidableEq, Repr

/-- What a stored completion callback was called with: `resolve(data)` or
`reject(new Error(reason))`. -/
inductive Outcome where
  | resolved (value : Msg)
  | rejected (reason : String)
deriving DecidableEq, Repr

/-- One call of a stored callback pair, tagged by the request identifier the
pair was stored under. -/
structure Invocation where
  reqId : String
  outcome : Outcome
deriving DecidableEq, Repr

/-- The reject reason of the timeout path: `reject(new Error('Request
timeout'))`, server.js line 189. -/
def timeoutRejectReason : String := "Request timeout"

/-- The reject reason of the zero-client path: `reject(new Error('No Figma
clients connected'))`, server.js line 183. -/
def noClientsReason : String := "No Figma clients connected"

/-- The reject reason of the remote-rejection path: `data.error ||
'Operation failed'`, server.js line 91 (JS `||`: absent or empty error text
falls back to the generic message). -/
def opResultErrorMsg : Option String → String
  | none => "Operation failed"
  | some e => if e = "" then "Operation failed" else e

/-- Server.js lines 74–79 (inside the selection-data branch, after the
`data.requestId && pendingRequests.has(data.requestId)` guard has supplied a
known identifier): `clearTimeout(pending.timeout); pending.resolve(data);
pendingRequests.delete(data.requestId)`.  Absent identifier: no-op. -/
def resolveIfPending (rid : String) (data : Msg) (ps : PendingState) :
    PendingState × List Invocation :=
  if rid ∈ ps.pending then
    ({ pending := eraseId rid ps.pending, armed := eraseId rid ps.armed },
     [{ reqId := rid, outcome := Outcome.resolved data }])
  else (ps, [])

/-- Server.js lines 85–94: on `operation-result` with a known identifier,
clear the timer, `resolve(data)` when `data.success` is truthy else
`reject(new Error(data.error || 'Operation failed'))`, and delete the
entry.  Absent identifier: no-op. -/
def settleIfPending (rid : String) (data : Msg) (ps : PendingState) :
    PendingState × List Invocation :=
  if rid ∈ ps.pending then
    ({ pending := eraseId rid ps.pending, armed := eraseId rid ps.armed },
     [{ reqId := rid,
        outcome := if data.success then Outcome.resolved data
                   else Outcome.rejected (opResultErrorMsg data.error) }])
  else (ps, [])

/-- Server.js lines 187–190: the `setTimeout` callback, which can only run
while the timer is armed (`clearTimeout` prevents it afterwards):
`pendingRequests.delete(requestId); reject(new Error('Request timeout'))`. -/
def timerFire (rid : String) (ps : PendingState) : PendingState × List Invocation :=
  if rid ∈ ps.armed then
    ({ pending := eraseId rid ps.pending, armed := eraseId rid ps.armed },
     [{ reqId := rid, outcome := Outcome.rejected timeoutRejectReason }])
  else (ps, [])

/-- One write performed by a broadcast: which client it went to and the
serialized payload handed to `client.send`. -/
structure Send where
  dest : String
  payload : String
deriving DecidableEq, Repr

/-- The body of the `figmaClients.forEach` loop in `broadcastToFigma`:
`if (client.readyState === 1) { client.send(messageStr); sentCount++; }`. -/
def broadcastStep (messageStr : String) (acc : Nat × List Send) (client : Conn) :
    Nat × List Send :=
  if client.readyState = 1 then
    (acc.1 + 1, acc.2 ++ [{ dest := client.clientId, payload := messageStr }])
  else acc

/-- Server.js lines 158–170, `broadcastToFigma(message)`: serialize the
message once, write the resulting string to every client whose `readyState`
is `1`, and return the count of writes together with the writes themselves. -/
def broadcastToFigma (stringify : Msg → String) (figmaClients : List Conn)
    (message : Msg) : Nat × List Send :=
  let messageStr := stringify message
  figmaClients.foldl (broadcastStep messageStr) (0, [])

/-- How `sendAndWait` left the caller's promise at the end of its executor:
already rejected, or parked as a pending entry under a fresh identifier. -/
inductive SendResult where
  | immediateReject (reason : String)
  | pendingCreated (requestId : String)
deriving DecidableEq, Repr

/-- Everything observable about one `sendAndWait` call: the promise outcome
at executor exit, the writes performed by the broadcast, the pending table
afterwards, and the delay of the started timer (`none` when no `setTimeout`
was ever issued). -/
structure SendAndWaitOut where
  result : SendResult
  sends : List Send
  pendingAfter : PendingState
  timerDelay : Option Nat
deriving DecidableEq, Repr

/-- Server.js lines 175–194, `sendAndWait(message, timeoutMs)`: stamp the
message with the generated `requestId`, broadcast it; if the broadcast
reached zero clients reject at once with `'No Figma clients connected'` and
return before any `setTimeout` or `pendingRequests.set`; otherwise start the
timer and store the entry.  The identifier generation
(`generateRequestId()`) is passed in as `rid`. -/
def sendAndWait (stringify : Msg → String) (figmaClients : List Conn)
    (rid : String) (message : Msg) (timeoutMs : Nat) (ps : PendingState) :
    SendAndWaitOut :=
  let message2 : Msg := { message with requestId := some rid }
  let b := broadcastToFigma stringify figmaClients message2
  if b.1 = 0 then
    { result := SendResult.immediateReject noClientsReason, sends := b.2,
      pendingAfter := ps, timerDelay := none }
  else
    { result := SendResult.pendingCreated rid, sends := b.2,
      pendingAfter := { pending := insertId rid ps.pending,
                        armed := insertId rid ps.armed },
      timerDelay := some timeoutMs }

/-- A message the handler writes back to the sending connection.  The only
synchronous same-handler reply in the v3.0/v5.5 dispatcher is the pong. -/
inductive OutMsg where
  | pong
deriving DecidableEq, Repr

/-- The complete effect of one run of the v5.5 `ws.on('message')` handler:
the caches and pending table afterwards, the callback invocations it
performed, the replies it sent to the sender, and the frames it delegated to
the out-of-band analyze-frames collaborator (if any). -/
structure HandlerResult where
  selectionCache : List (String × SelEntry)
  variablesCache : List (String × VarEntry)
  pending : PendingState
  invocations : List Invocation
  replies : List OutMsg
  analyzeRequested : Option (List String)
deriving DecidableEq, Repr

/-- The do-nothing handler effect: state returned unchanged, no invocation,
no reply, no delegation. -/
def noEffect (sel : List (String × SelEntry)) (vars : List (String × VarEntry))
    (ps : PendingState) : HandlerResult :=
  { selectionCache := sel, variablesCache := vars, pending := ps,
    invocations := [], replies := [], analyzeRequested := none }

/-- Server.js lines 54–120: the v5.5 message handler for the connection with
identifier `cid` at time `now`.  `parsed = none` is the `JSON.parse` failure
case, caught and dropped by the surrounding try/catch; otherwise the handler
branches on `data.type` in source order (`ping`, `selection-data`,
`operation-result`, `variables-data`, `analyze-frames`) and falls through to
no effect on any other type. -/
def handleMessage (cid : String) (now : Nat) (parsed : Option Msg)
    (sel : List (String × SelEntry)) (vars : List (String × VarEntry))
    (ps : PendingState) : HandlerResult :=
  match parsed with
  | none => noEffect sel vars ps
  | some data =>
    if data.type = "ping" then
      { noEffect sel vars ps with replies := [OutMsg.pong] }
    else if data.type = "selection-data" then
      let sel2 := mapSet cid
        { timestamp := now, data := data.selection,
          nodeCount := data.nodeCount.getD 0 } sel
      let pr := match truthy data.requestId with
        | some rid => resolveIfPending rid data ps
        | none => (ps, [])
      { selectionCache := sel2, variablesCache := vars, pending := pr.1,
        invocations := pr.2, replies := [], analyzeRequested := none }
    else if data.type = "operation-result" then
      let pr := match truthy data.requestId with
        | some rid => settleIfPending rid data ps
        | none => (ps, [])
      { selectionCache := sel, variablesCache := vars, pending := pr.1,
        invocations := pr.2, replies := [], analyzeRequested := none }
    else if data.type = "variables-data" then
      let vars2 := mapSet cid
        { timestamp := now, varsList := data.varsData.getD [],
          fileKey := truthy data.fileKey, fileName := truthy data.fileName,
          collectionCount := data.collectionCount.getD 0 } vars
      { selectionCache := sel, variablesCache := vars2, pending := ps,
        invocations := [], replies := [], analyzeRequested := none }
    else if data.type = "analyze-frames" then
      { noEffect sel vars ps with analyzeRequested := some (data.frames.getD []) }
    else
      noEffect sel vars ps

/-- The complete effect of one run of the v3.0 message handler
(`src/unnamed/part_000` has no variables cache and no analyze-frames
delegation). -/
structure HandlerResultV3 where
  selectionCache : List (String × SelEntry)
  pending : PendingState
  invocations : List Invocation
  replies : List OutMsg
deriving DecidableEq, Repr

/-- Part_000 lines 49–96: the v3.0 message handler, branching on `ping`,
`selection-data`, `operation-result` with code identical to v5.5's branches
and no further branches. -/
def handleMessageV3 (cid : String) (now : Nat) (parsed : Option Msg)
    (sel : List (String × SelEntry)) (ps : PendingState) : HandlerResultV3 :=
  match parsed with
  | none => { selectionCache := sel, pending := ps, invocations := [], replies := [] }
  | some data =>
    if data.type = "ping" then
      { selectionCache := sel, pending := ps, invocations := [], replies := [OutMsg.pong] }
    else if data.type = "selection-data" then
      let sel2 := mapSet cid
        { timestamp := now, data := data.selection,
          nodeCount := data.nodeCount.getD 0 } sel
      let pr := match truthy data.requestId with
        | some rid => resolveIfPending rid data ps
        | none => (ps, [])
      { selectionCache := sel2, pending := pr.1, invocations := pr.2, replies := [] }
    else if data.type = "operation-result" then
      let pr := match truthy data.requestId with
        | some rid => settleIfPending rid data ps
        | none => (ps, [])
      { selectionCache := sel, pending := pr.1, invocations := pr.2, replies := [] }
    else
      { selectionCache := sel, pending := ps, invocations := [], replies := [] }

/-- The in-memory state the websocket callbacks mutate: the client set, the
two caches, and the pending table with its timers. -/
structure ServerState where
  figmaClients : List Conn
  selectionCache : List (String × SelEntry)
  variablesCache : List (String × VarEntry)
  ps : PendingState
deriving DecidableEq, Repr

/-- Server.js lines 122–127, the `ws.on('close')` handler for the connection
with identifier `cid`: `figmaClients.delete(ws); selectionCache.delete(clientId);
variablesCache.delete(clientId)` — and nothing else; in particular
`pendingRequests` is untouched.  Connection identity is its process-unique
`clientId`. -/
def handleClose (cid : String) (s : ServerState) : ServerState :=
  { figmaClients := s.figmaClients.filter (fun c => c.clientId ≠ cid),
    selectionCache := mapDelete cid s.selectionCache,
    variablesCache := mapDelete cid s.variablesCache,
    ps := s.ps }

/-- One task on the single-threaded scheduler that can touch a pending
request after it was created: an inbound frame from some connection (with
its parse result), or the firing of the timeout timer of some request. -/
inductive Event where
  | inbound (cid : String) (now : Nat) (parsed : Option Msg)
  | timer (rid : String)
deriving DecidableEq, Repr

/-- Run one scheduler task against the server state, collecting the callback
invocations it performs. -/
def stepEvent (s : ServerState) : Event → ServerState × List Invocation
  | Event.inbound cid now parsed =>
    let r := handleMessage cid now parsed s.selectionCache s.variablesCache s.ps
    ({ figmaClients := s.figmaClients, selectionCache := r.selectionCache,
       variablesCache := r.variablesCache, ps := r.pending }, r.invocations)
  | Event.timer rid =>
    let pr := timerFire rid s.ps
    ({ figmaClients := s.figmaClients, selectionCache := s.selectionCache,
       variablesCache := s.variablesCache, ps := pr.1 }, pr.2)

/-- Run a sequence of scheduler tasks, concatenating the invocations. -/
def runEvents (s : ServerState) : List Event → ServerState × List Invocation
  | [] => (s, [])
  | e :: es =>
    let p := stepEvent s e
    let q := runEvents p.1 es
    (q.1, p.2 ++ q.2)

/-- How many times the callback pair stored under `rid` was called in a list
of invocations. -/
def countFor (rid : String) (invs : List Invocation) : Nat :=
  (invs.filter (fun i => i.reqId = rid)).length

/-- The request is live: its entry is in `pendingRequests` and its timer is
armed. -/
def liveIn (rid : String) (ps : PendingState) : Prop :=
  rid ∈ ps.pending ∧ rid ∈ ps.armed

/-- The request is dead: no entry, no armed timer. -/
def deadIn (rid : String) (ps : PendingState) : Prop :=
  rid ∉ ps.pending ∧ rid ∉ ps.armed

/-- A concrete serializer standing in for `JSON.stringify` in closed
evaluations; only equality of its outputs is ever used. -/
def stringifyModel (m : Msg) : String :=
  m.type ++ "|" ++ (truthy m.requestId).getD "-" ++ "|" ++ m.selection

/-- One row of the `selections` array built by `GET /api/figma/selection`
(server.js lines 321–329). -/
structure SelView where
  clientId : String
  timestamp : Nat
  age : Nat
  nodeCount : Nat
  data : String
deriving DecidableEq, Repr

/-- The `selections` array in cache iteration order. -/
def selViews (now : Nat) (cache : List (String × SelEntry)) : List SelView :=
  cache.map (fun p =>
    { clientId := p.1, timestamp := p.2.timestamp, age := now - p.2.timestamp,
      nodeCount := p.2.nodeCount, data := p.2.data })

/-- Stable insertion of a row into a list already sorted by descending
timestamp, modelling JS stable `sort((a, b) => b.timestamp - a.timestamp)`:
the inserted earlier-positioned row goes before the first strictly older row
and before none of the rows at least as new. -/
def insertDescByTs (x : SelView) : List SelView → List SelView
  | [] => [x]
  | y :: ys => if x.timestamp ≤ y.timestamp then y :: insertDescByTs x ys
               else x :: y :: ys

/-- Sort the `selections` array by descending timestamp (stable, as
`Array.prototype.sort` is). -/
def sortByTsDesc : List SelView → List SelView
  | [] => []
  | x :: xs => insertDescByTs x (sortByTsDesc xs)

/-- The response body of `GET /api/figma/selection`: the explicit empty
result (`selections: []` plus the no-data message), or the latest row plus
the full newest-first list. -/
inductive SelectionResponse where
  | empty
  | filled (latest : SelView) (all : List SelView)
deriving DecidableEq, Repr

/-- Server.js lines 317–348: build the `selections` array from the cache,
return the explicit empty result when it is empty, otherwise sort it
newest-first and return `{ latest: selections[0], all: selections }`.
(The length-zero check of the source commutes with sorting, so the empty
case is read off the sorted list.) -/
def getSelection (now : Nat) (cache : List (String × SelEntry)) : SelectionResponse :=
  match sortByTsDesc (selViews now cache) with
  | [] => SelectionResponse.empty
  | x :: xs => SelectionResponse.filled x (x :: xs)

/-- Membership in the result of removing an identifier. -/
theorem mem_eraseId {x rid : String} {l : List String} :
    x ∈ eraseId rid l ↔ x ∈ l ∧ x ≠ rid := by
  simp [eraseId, List.mem_filter]

/-- The removed identifier is gone. -/
theorem not_mem_eraseId (rid : String) (l : List String) : rid ∉ eraseId rid l := by
  intro h
  exact (mem_eraseId.1 h).2 rfl

/-- The inserted identifier is present. -/
theorem mem_insertId_self (rid : String) (l : List String) : rid ∈ insertId rid l := by
  by_cases h : rid ∈ l <;> simp [insertId, h]

/-- Erasing one identifier from both lists kills that identifier. -/
theorem erase_pair_self (rid : String) (ps : PendingState) :
    deadIn rid { pending := eraseId rid ps.pending, armed := eraseId rid ps.armed } :=
  ⟨not_mem_eraseId rid ps.pending, not_mem_eraseId rid ps.armed⟩

/-- Erasing a different identifier preserves liveness and deadness of the
tracked one. -/
theorem erase_pair_other {rid r : String} (h : r ≠ rid) (ps : PendingState) :
    (liveIn rid ps →
        liveIn rid { pending := eraseId r ps.pending, armed := eraseId r ps.armed })
  ∧ (deadIn rid ps →
        deadIn rid { pending := eraseId r ps.pending, armed := eraseId r ps.armed }) := by
  constructor
  · rintro ⟨h1, h2⟩
    exact ⟨mem_eraseId.2 ⟨h1, Ne.symm h⟩, mem_eraseId.2 ⟨h2, Ne.symm h⟩⟩
  · rintro ⟨h1, h2⟩
    constructor
    · intro hx; exact h1 (mem_eraseId.1 hx).1
    · intro hx; exact h2 (mem_eraseId.1 hx).1

/-- Counting invocations of one identifier in a singleton list. -/
theorem countFor_single (rid r : String) (o : Outcome) :
    countFor rid [{ reqId := r, outcome := o }] = if r = rid then 1 else 0 := by
  by_cases h : r = rid <;> simp [countFor, h]

/-- Counting invocations distributes over concatenation. -/
theorem countFor_append (rid : String) (a b : List Invocation) :
    countFor rid (a ++ b) = countFor rid a + countFor rid b := by
  simp [countFor, List.filter_append]

/-- Dichotomy of `resolveIfPending` for a tracked identifier: a live entry
either stays live with no callback call (some other identifier was
targeted), or dies with exactly one call; a dead entry stays dead silently. -/
theorem resolveIfPending_dichotomy (rid rid' : String) (d : Msg) (ps : PendingState) :
    (liveIn rid ps →
        (liveIn rid (resolveIfPending rid' d ps).1
          ∧ countFor rid (resolveIfPending rid' d ps).2 = 0)
      ∨ (deadIn rid (resolveIfPending rid' d ps).1
          ∧ countFor rid (resolveIfPending rid' d ps).2 = 1))
  ∧ (deadIn rid ps →
      deadIn rid (resolveIfPending rid' d ps).1
        ∧ countFor rid (resolveIfPending rid' d ps).2 = 0) := by
  unfold resolveIfPending
  by_cases hmem : rid' ∈ ps.pending
  · rw [if_pos hmem]
    by_cases heq : rid' = rid
    · subst heq
      constructor
      · intro _
        right
        exact ⟨erase_pair_self rid' ps, by rw [countFor_single, if_pos rfl]⟩
      · intro hd
        exact absurd hmem hd.1
    · constructor
      · intro hl
        left
        exact ⟨(erase_pair_other heq ps).1 hl, by rw [countFor_single, if_neg heq]⟩
      · intro hd
        exact ⟨(erase_pair_other heq ps).2 hd, by rw [countFor_single, if_neg heq]⟩
  · rw [if_neg hmem]
    constructor
    · intro hl; left; exact ⟨hl, by simp [countFor]⟩
    · intro hd; exact ⟨hd, by simp [countFor]⟩

/-- Dichotomy of `settleIfPending`, identical in shape to
`resolveIfPending_dichotomy`. -/
theorem settleIfPending_dichotomy (rid rid' : String) (d : Msg) (ps : PendingState) :
    (liveIn rid ps →
        (liveIn rid (settleIfPending rid' d ps).1
          ∧ countFor rid (settleIfPending rid' d ps).2 = 0)
      ∨ (deadIn rid (settleIfPending rid' d ps).1
          ∧ countFor rid (settleIfPending rid' d ps).2 = 1))
  ∧ (deadIn rid ps →
      deadIn rid (settleIfPending rid' d ps).1
        ∧ countFor rid (settleIfPending rid' d ps).2 = 0) := by
  unfold settleIfPending
  by_cases hmem : rid' ∈ ps.pending
  · rw [if_pos hmem]
    by_cases heq : rid' = rid
    · subst heq
      constructor
      · intro _
        right
        exact ⟨erase_pair_self rid' ps, by rw [countFor_single, if_pos rfl]⟩
      · intro hd
        exact absurd hmem hd.1
    · constructor
      · intro hl
        left
        exact ⟨(erase_pair_other heq ps).1 hl, by rw [countFor_single, if_neg heq]⟩
      · intro hd
        exact ⟨(erase_pair_other heq ps).2 hd, by rw [countFor_single, if_neg heq]⟩
  · rw [if_neg hmem]
    constructor
    · intro hl; left; exact ⟨hl, by simp [countFor]⟩
    · intro hd; exact ⟨hd, by simp [countFor]⟩

/-- Dichotomy of `timerFire`: the guard is the armed list, otherwise the
shape is the same. -/
theorem timerFire_dichotomy (rid rid' : String) (ps : PendingState) :
    (liveIn rid ps →
        (liveIn rid (timerFire rid' ps).1 ∧ countFor rid (timerFire rid' ps).2 = 0)
      ∨ (deadIn rid (timerFire rid' ps).1 ∧ countFor rid (timerFire rid' ps).2 = 1))
  ∧ (deadIn rid ps →
      deadIn rid (timerFire rid' ps).1 ∧ countFor rid (timerFire rid' ps).2 = 0) := by
  unfold timerFire
  by_cases hmem : rid' ∈ ps.armed
  · rw [if_pos hmem]
    by_cases heq : rid' = rid
    · subst heq
      constructor
      · intro _
        right
        exact ⟨erase_pair_self rid' ps, by rw [countFor_single, if_pos rfl]⟩
      · intro hd
        exact absurd hmem hd.2
    · constructor
      · intro hl
        left
        exact ⟨(erase_pair_other heq ps).1 hl, by rw [countFor_single, if_neg heq]⟩
      · intro hd
        exact ⟨(erase_pair_other heq ps).2 hd, by rw [countFor_single, if_neg heq]⟩
  · rw [if_neg hmem]
    constructor
    · intro hl; left; exact ⟨hl, by simp [countFor]⟩
    · intro hd; exact ⟨hd, by simp [countFor]⟩

/-- The v5.5 handler touches the pending table only through
`resolveIfPending` or `settleIfPending`; every other branch returns it
untouched with no invocation. -/
theorem handleMessage_table (cid : String) (now : Nat) (parsed : Option Msg)
    (sel : List (String × SelEntry)) (vars : List (String × VarEntry))
    (ps : PendingState) :
    ((handleMessage cid now parsed sel vars ps).pending = ps
      ∧ (handleMessage cid now parsed sel vars ps).invocations = [])
  ∨ (∃ rid d, (handleMessage cid now parsed sel vars ps).pending
        = (resolveIfPending rid d ps).1
      ∧ (handleMessage cid now parsed sel vars ps).invocations
        = (resolveIfPending rid d ps).2)
  ∨ (∃ rid d, (handleMessage cid now parsed sel vars ps).pending
        = (settleIfPending rid d ps).1
      ∧ (handleMessage cid now parsed sel vars ps).invocations
        = (settleIfPending rid d ps).2) := by
  match parsed with
  | none => exact Or.inl ⟨rfl, rfl⟩
  | some data =>
    by_cases h1 : data.type = "ping"
    · left; simp [handleMessage, h1, noEffect]
    · by_cases h2 : data.type = "selection-data"
      · rcases htr : truthy data.requestId with _ | rid
        · left; simp [handleMessage, h1, h2, htr]
        · right; left
          exact ⟨rid, data, by simp [handleMessage, h1, h2, htr],
                 by simp [handleMessage, h1, h2, htr]⟩
      · by_cases h3 : data.type = "operation-result"
        · rcases htr : truthy data.requestId with _ | rid
          · left; simp [handleMessage, h1, h2, h3, htr]
          · right; right
            exact ⟨rid, data, by simp [handleMessage, h1, h2, h3, htr],
                   by simp [handleMessage, h1, h2, h3, htr]⟩
        · by_cases h4 : data.type = "variables-data"
          · left; simp [handleMessage, h1, h2, h3, h4]
          · by_cases h5 : data.type = "analyze-frames"
            · left; simp [handleMessage, h1, h2, h3, h4, h5, noEffect]
            · left; simp [handleMessage, h1, h2, h3, h4, h5, noEffect]

/-- Dichotomy of one scheduler task for a tracked identifier. -/
theorem stepEvent_dichotomy (rid : String) (s : ServerState) (e : Event) :
    (liveIn rid s.ps →
        (liveIn rid (stepEvent s e).1.ps ∧ countFor rid (stepEvent s e).2 = 0)
      ∨ (deadIn rid (stepEvent s e).1.ps ∧ countFor rid (stepEvent s e).2 = 1))
  ∧ (deadIn rid s.ps →
      deadIn rid (stepEvent s e).1.ps ∧ countFor rid (stepEvent s e).2 = 0) := by
  cases e with
  | inbound cid now parsed =>
    have h := handleMessage_table cid now parsed s.selectionCache s.variablesCache s.ps
    simp only [stepEvent]
    rcases h with ⟨hp, hi⟩ | ⟨r, d, hp, hi⟩ | ⟨r, d, hp, hi⟩
    · rw [hp, hi]
      constructor
      · intro hl; left; exact ⟨hl, by simp [countFor]⟩
      · intro hd; exact ⟨hd, by simp [countFor]⟩
    · rw [hp, hi]
      exact resolveIfPending_dichotomy rid r d s.ps
    · rw [hp, hi]
      exact settleIfPending_dichotomy rid r d s.ps
  | timer r =>
    simp only [stepEvent]
    exact timerFire_dichotomy rid r s.ps

/-- Dichotomy of a whole task sequence: starting live, the tracked request
either is still live with its callbacks never called, or is gone with its
callbacks called exactly once; starting dead it stays dead and silent. -/
theorem runEvents_dichotomy (rid : String) (tr : List Event) (s : ServerState) :
    (liveIn rid s.ps →
        (liveIn rid (runEvents s tr).1.ps ∧ countFor rid (runEvents s tr).2 = 0)
      ∨ (deadIn rid (runEvents s tr).1.ps ∧ countFor rid (runEvents s tr).2 = 1))
  ∧ (deadIn rid s.ps →
      deadIn rid (runEvents s tr).1.ps ∧ countFor rid (runEvents s tr).2 = 0) := by
  induction tr generalizing s with
  | nil =>
    constructor
    · intro hl; left; exact ⟨hl, by simp [runEvents, countFor]⟩
    · intro hd; exact ⟨hd, by simp [runEvents, countFor]⟩
  | cons e es ih =>
    have hstep := stepEvent_dichotomy rid s e
    have hrun := ih (stepEvent s e).1
    simp only [runEvents]
    constructor
    · intro hl
      rcases hstep.1 hl with ⟨hl', hc⟩ | ⟨hd', hc⟩
      · rcases hrun.1 hl' with ⟨hl'', hc'⟩ | ⟨hd'', hc'⟩
        · left; exact ⟨hl'', by rw [countFor_append, hc, hc']⟩
        · right; exact ⟨hd'', by rw [countFor_append, hc, hc']⟩
      · right
        have h2 := hrun.2 hd'
        exact ⟨h2.1, by rw [countFor_append, hc, h2.2]⟩
    · intro hd
      have h1 := hstep.2 hd
      have h2 := hrun.2 h1.1
      exact ⟨h2.1, by rw [countFor_append, h1.2, h2.2]⟩

/-- Characterization of the broadcast loop as filter-and-map over the open
clients, for any accumulator. -/
theorem broadcastStep_foldl (messageStr : String) (l : List Conn) (n : Nat)
    (acc : List Send) :
    l.foldl (broadcastStep messageStr) (n, acc)
      = (n + (l.filter (fun c => c.readyState = 1)).length,
         acc ++ (l.filter (fun c => c.readyState = 1)).map
           (fun c => { dest := c.clientId, payload := messageStr })) := by
  induction l generalizing n acc with
  | nil => simp
  | cons c cs ih =>
    by_cases h : c.readyState = 1
    · rw [List.foldl_cons,
        show broadcastStep messageStr (n, acc) c
            = (n + 1, acc ++ [{ dest := c.clientId, payload := messageStr }]) from by
          simp [broadcastStep, h],
        ih,
        show List.filter (fun c => decide (c.readyState = 1)) (c :: cs)
            = c :: List.filter (fun c => decide (c.readyState = 1)) cs from by
          simp [List.filter_cons, h],
        Prod.mk.injEq]
      constructor
      · simp only [List.length_cons]; omega
      · simp
    · rw [List.foldl_cons,
        show broadcastStep messageStr (n, acc) c = (n, acc) from by
          simp [broadcastStep, h],
        ih,
        show List.filter (fun c => decide (c.readyState = 1)) (c :: cs)
            = List.filter (fun c => decide (c.readyState = 1)) cs from by
          simp [List.filter_cons, h]]

/-- `broadcastToFigma` computed in closed form: the count is the number of
open clients and the writes carry the one serialized string to exactly the
open clients in registry order. -/
theorem broadcastToFigma_char (stringify : Msg → String) (clients : List Conn)
    (message : Msg) :
    broadcastToFigma stringify clients message
      = ((clients.filter (fun c => c.readyState = 1)).length,
         (clients.filter (fun c => c.readyState = 1)).map
           (fun c => { dest := c.clientId, payload := stringify message })) := by
  unfold broadcastToFigma
  simpa using broadcastStep_foldl (stringify message) clients 0 []

/-- A successful `sendAndWait` leaves its fresh identifier live: entry in
the table, timer armed. -/
theorem sendAndWait_created_live (stringify : Msg → String) (clients : List Conn)
    (rid : String) (message : Msg) (timeoutMs : Nat) (ps : PendingState)
    (h : (sendAndWait stringify clients rid message timeoutMs ps).result
        = SendResult.pendingCreated rid) :
    liveIn rid (sendAndWait stringify clients rid message timeoutMs ps).pendingAfter := by
  unfold sendAndWait at *
  by_cases hb : (broadcastToFigma stringify clients
      { message with requestId := some rid }).1 = 0
  · simp [hb] at h
  · simp only [hb, if_neg, ite_false] at *
    exact ⟨mem_insertId_self rid ps.pending, mem_insertId_self rid ps.armed⟩

/-- Reading the key just written returns the written value. -/
theorem mapGet_mapSet_self (k : String) (v : α) (m : List (String × α)) :
    mapGet k (mapSet k v m) = some v := by
  induction m with
  | nil => simp [mapSet, mapGet]
  | cons p rest ih =>
    by_cases h : p.1 = k
    · simp [mapSet, mapGet, h]
    · simp [mapSet, mapGet, h, ih]

/-- Writing one key leaves every other key's value. -/
theorem mapGet_mapSet_other {k k' : String} (h : k' ≠ k) (v : α)
    (m : List (String × α)) : mapGet k' (mapSet k v m) = mapGet k' m := by
  have hk : ¬ k = k' := fun e => h e.symm
  induction m with
  | nil => simp [mapSet, mapGet, hk]
  | cons p rest ih =>
    obtain ⟨a, b⟩ := p
    by_cases hp : a = k
    · subst hp
      simp [mapSet, mapGet, hk]
    · by_cases hp' : a = k'
      · simp [mapSet, mapGet, hp, hp', h]
      · simp [mapSet, mapGet, hp, hp', ih]

/-- Deleting a key makes it unreadable. -/
theorem mapGet_mapDelete_self (k : String) (m : List (String × α)) :
    mapGet k (mapDelete k m) = none := by
  induction m with
  | nil => rfl
  | cons p rest ih =>
    by_cases h : p.1 = k
    · simpa [mapDelete, List.filter_cons, h] using ih
    · simpa [mapDelete, List.filter_cons, h, mapGet] using ih

/-- `Map.delete` unfolded one binding at a time. -/
theorem mapDelete_cons (k a : String) (b : α) (rest : List (String × α)) :
    mapDelete k ((a, b) :: rest)
      = if a = k then mapDelete k rest else (a, b) :: mapDelete k rest := by
  by_cases h : a = k <;> simp [mapDelete, List.filter_cons, h]

/-- Deleting a key leaves every other key's value. -/
theorem mapGet_mapDelete_other {k k' : String} (h : k' ≠ k)
    (m : List (String × α)) : mapGet k' (mapDelete k m) = mapGet k' m := by
  have hk : ¬ k = k' := fun e => h e.symm
  induction m with
  | nil => rfl
  | cons p rest ih =>
    obtain ⟨a, b⟩ := p
    rw [mapDelete_cons]
    by_cases hp : a = k
    · subst hp
      simp [mapGet, hk, ih]
    · by_cases hp' : a = k'
      · simp [mapGet, hp, hp', h]
      · simp [mapGet, hp, hp', ih]

/-- Stable descending insertion is a permutation of consing. -/
theorem insertDescByTs_perm (x : SelView) (l : List SelView) :
    List.Perm (insertDescByTs x l) (x :: l) := by
  induction l with
  | nil => exact List.Perm.refl [x]
  | cons y ys ih =>
    by_cases h : x.timestamp ≤ y.timestamp
    · rw [insertDescByTs, if_pos h]
      exact List.Perm.trans (List.Perm.cons y ih) (List.Perm.swap x y ys)
    · rw [insertDescByTs, if_neg h]

/-- The descending sort permutes its input. -/
theorem sortByTsDesc_perm (l : List SelView) : List.Perm (sortByTsDesc l) l := by
  induction l with
  | nil => exact List.Perm.refl []
  | cons x xs ih =>
    exact List.Perm.trans (insertDescByTs_perm x (sortByTsDesc xs)) (List.Perm.cons x ih)

/-- Inserting into a descending-sorted list keeps it descending-sorted. -/
theorem insertDescByTs_pairwise (x : SelView) (l : List SelView)
    (h : List.Pairwise (fun a b => b.timestamp ≤ a.timestamp) l) :
    List.Pairwise (fun a b => b.timestamp ≤ a.timestamp) (insertDescByTs x l) := by
  induction l with
  | nil => simp [insertDescByTs]
  | cons y ys ih =>
    rcases List.pairwise_cons.1 h with ⟨hy, hys⟩
    by_cases hle : x.timestamp ≤ y.timestamp
    · rw [insertDescByTs, if_pos hle]
      refine List.pairwise_cons.2 ⟨?_, ih hys⟩
      intro z hz
      rcases List.mem_cons.1 ((insertDescByTs_perm x ys).mem_iff.1 hz) with rfl | hz'
      · exact hle
      · exact hy z hz'
    · rw [insertDescByTs, if_neg hle]
      refine List.pairwise_cons.2 ⟨?_, h⟩
      intro z hz
      rcases List.mem_cons.1 hz with rfl | hz'
      · omega
      · exact le_trans (hy z hz') (by omega)

/-- The descending sort is descending-sorted. -/
theorem sortByTsDesc_pairwise (l : List SelView) :
    List.Pairwise (fun a b => b.timestamp ≤ a.timestamp) (sortByTsDesc l) := by
  induction l with
  | nil => simp [sortByTsDesc]
  | cons x xs ih => exact insertDescByTs_pairwise x _ ih

/-- C1: for a request identifier created by a successful `sendAndWait`,
across any sequence of inbound replies and timer firings after which the
request's timer is no longer armed (it fired or was cancelled — the only
complete schedules, since an armed timer always eventually fires), the
stored callback pair is invoked exactly once, the entry is removed from the
table, and any resolve, settle or timer-fire attempt on an identifier absent
from the table is a silent no-op leaving the table unchanged. -/
theorem pendingRequest_exactly_once
    (stringify : Msg → String) (clients : List Conn) (msg : Msg) (timeoutMs : Nat)
    (ps0 : PendingState) (rid : String) (fc : List Conn)
    (sel : List (String × SelEntry)) (vars : List (String × VarEntry))
    (tr : List Event)
    (hcreated : (sendAndWait stringify clients rid msg timeoutMs ps0).result
        = SendResult.pendingCreated rid)
    (hquiesced : rid ∉ (runEvents
        { figmaClients := fc, selectionCache := sel, variablesCache := vars,
          ps := (sendAndWait stringify clients rid msg timeoutMs ps0).pendingAfter }
        tr).1.ps.armed) :
    countFor rid (runEvents
        { figmaClients := fc, selectionCache := sel, variablesCache := vars,
          ps := (sendAndWait stringify clients rid msg timeoutMs ps0).pendingAfter }
        tr).2 = 1
  ∧ rid ∉ (runEvents
        { figmaClients := fc, selectionCache := sel, variablesCache := vars,
          ps := (sendAndWait stringify clients rid msg timeoutMs ps0).pendingAfter }
        tr).1.ps.pending
  ∧ (∀ (d : Msg) (ps : PendingState), rid ∉ ps.pending →
        resolveIfPending rid d ps = (ps, []) ∧ settleIfPending rid d ps = (ps, []))
  ∧ (∀ ps : PendingState, rid ∉ ps.armed → timerFire rid ps = (ps, [])) := by
  have hlive := sendAndWait_created_live stringify clients rid msg timeoutMs ps0 hcreated
  rcases (runEvents_dichotomy rid tr
      { figmaClients := fc, selectionCache := sel, variablesCache := vars,
        ps := (sendAndWait stringify clients rid msg timeoutMs ps0).pendingAfter }).1
      hlive with ⟨hl, _⟩ | ⟨hd, hc⟩
  · exact absurd hl.2 hquiesced
  · refine ⟨hc, hd.1, ?_, ?_⟩
    · intro d ps habs
      exact ⟨by simp [resolveIfPending, habs], by simp [settleIfPending, habs]⟩
    · intro ps habs
      simp [timerFire, habs]

/-- Concrete run of C1: one open client, the request is created, then its
timer fires; the callback pair runs exactly once. -/
theorem pendingRequest_exactly_once_witness :
    countFor "r1" (runEvents
        { figmaClients := [], selectionCache := [], variablesCache := [],
          ps := (sendAndWait stringifyModel [{ clientId := "c1", readyState := 1 }]
              "r1" { type := "update-node" } 30000
              { pending := [], armed := [] }).pendingAfter }
        [Event.timer "r1"]).2 = 1 :=
  (pendingRequest_exactly_once stringifyModel [{ clientId := "c1", readyState := 1 }]
    { type := "update-node" } 30000 { pending := [], armed := [] } "r1" [] [] []
    [Event.timer "r1"] (by decide) (by decide)).1

/-- C2: with zero open connections, `sendAndWait` rejects immediately with
the no-clients failure, performs no write, leaves the correlation table
exactly as it was (so the fresh identifier is absent from it), and starts no
timer. -/
theorem sendAndWait_no_clients
    (stringify : Msg → String) (clients : List Conn) (rid : String) (message : Msg)
    (timeoutMs : Nat) (ps : PendingState)
    (hno : ∀ c ∈ clients, c.readyState ≠ 1) :
    sendAndWait stringify clients rid message timeoutMs ps
      = { result := SendResult.immediateReject noClientsReason, sends := [],
          pendingAfter := ps, timerDelay := none }
  ∧ (rid ∉ ps.pending →
      rid ∉ (sendAndWait stringify clients rid message timeoutMs ps).pendingAfter.pending) := by
  have hf : clients.filter (fun c => c.readyState = 1) = [] := by
    rw [List.filter_eq_nil_iff]
    intro c hc
    simpa using hno c hc
  have hmain : sendAndWait stringify clients rid message timeoutMs ps
      = { result := SendResult.immediateReject noClientsReason, sends := [],
          pendingAfter := ps, timerDelay := none } := by
    simp [sendAndWait, broadcastToFigma_char, hf]
  refine ⟨hmain, ?_⟩
  intro habs
  rw [hmain]
  exact habs

/-- Concrete run of C2: one client in CLOSING state, the call rejects with
the no-clients reason, the table is untouched and no timer exists. -/
theorem sendAndWait_no_clients_witness :
    sendAndWait stringifyModel [{ clientId := "c1", readyState := 3 }] "r1"
        { type := "read-selection" } 30000 { pending := [], armed := [] }
      = { result := SendResult.immediateReject noClientsReason, sends := [],
          pendingAfter := { pending := [], armed := [] }, timerDelay := none } :=
  (sendAndWait_no_clients stringifyModel [{ clientId := "c1", readyState := 3 }] "r1"
    { type := "read-selection" } 30000 { pending := [], armed := [] }
    (by decide)).1

/-- C3 counterexample: a remote that reports failure with the error text
`"Request timeout"` produces a rejection indistinguishable from the timeout
path — the operation-result settle and the timer firing deliver the very
same invocation, refuting the claim for that remote-supplied string. -/
theorem timeout_vs_remote_reason_counterexample :
    (settleIfPending "r1"
        { type := "operation-result", requestId := some "r1",
          error := some "Request timeout" }
        { pending := ["r1"], armed := ["r1"] }).2
      = [{ reqId := "r1", outcome := Outcome.rejected timeoutRejectReason }]
  ∧ (timerFire "r1" { pending := ["r1"], armed := ["r1"] }).2
      = [{ reqId := "r1", outcome := Outcome.rejected timeoutRejectReason }] := by
  constructor <;> decide

/-- C3 amended: the remote-rejection failure reason coincides with the
timeout path's fixed reason `'Request timeout'` exactly when the remote
supplies that very string as its error text; for every other
remote-supplied error value — including an absent or empty one, which falls
back to `'Operation failed'` — the two reasons differ. -/
theorem timeout_vs_remote_reason (e : Option String) :
    opResultErrorMsg e = timeoutRejectReason ↔ e = some timeoutRejectReason := by
  cases e with
  | none =>
    constructor
    · intro h; exact absurd h (by decide)
    · intro h; cases h
  | some s =>
    by_cases h : s = ""
    · subst h
      constructor
      · intro h2; exact absurd h2 (by simp [opResultErrorMsg]; decide)
      · intro h2
        exact absurd (Option.some.inj h2) (by decide)
    · constructor
      · intro h2
        rw [opResultErrorMsg, if_neg h] at h2
        exact h2 ▸ rfl
      · intro h2
        rw [Option.some.inj h2, opResultErrorMsg,
          if_neg (by decide : ¬ timeoutRejectReason = "")]

/-- C4: a broadcast writes the one serialized string to exactly the
connections in ready state 1, in registry order, and returns the number of
those writes (zero when none are open); with three open connections it
returns 3. -/
theorem broadcast_fanout_spec (stringify : Msg → String) (clients : List Conn)
    (message : Msg) :
    (broadcastToFigma stringify clients message).1
        = (clients.filter (fun c => c.readyState = 1)).length
  ∧ (broadcastToFigma stringify clients message).2
        = (clients.filter (fun c => c.readyState = 1)).map
            (fun c => { dest := c.clientId, payload := stringify message })
  ∧ (broadcastToFigma stringify ([] : List Conn) message).1 = 0
  ∧ (broadcastToFigma stringifyModel
        [{ clientId := "a", readyState := 1 }, { clientId := "b", readyState := 1 },
         { clientId := "c", readyState := 1 }] { type := "create" }).1 = 3 := by
  refine ⟨?_, ?_, rfl, by decide⟩
  · rw [broadcastToFigma_char]
  · rw [broadcastToFigma_char]

/-- The v5.5 handler on an `operation-result` message, reduced to the settle
action. -/
theorem handleMessage_opResult (cid : String) (now : Nat) (d : Msg)
    (sel : List (String × SelEntry)) (vars : List (String × VarEntry))
    (ps : PendingState) (htype : d.type = "operation-result") :
    handleMessage cid now (some d) sel vars ps
      = { selectionCache := sel, variablesCache := vars,
          pending := (match truthy d.requestId with
            | some rid => settleIfPending rid d ps
            | none => (ps, [])).1,
          invocations := (match truthy d.requestId with
            | some rid => settleIfPending rid d ps
            | none => (ps, [])).2,
          replies := [], analyzeRequested := none } := by
  have h1 : ¬ d.type = "ping" := by rw [htype]; decide
  have h2 : ¬ d.type = "selection-data" := by rw [htype]; decide
  simp [handleMessage, h1, h2, htype]

/-- The v5.5 handler on a `selection-data` message, reduced to the cache
write plus the resolve action. -/
theorem handleMessage_selData (cid : String) (now : Nat) (d : Msg)
    (sel : List (String × SelEntry)) (vars : List (String × VarEntry))
    (ps : PendingState) (htype : d.type = "selection-data") :
    handleMessage cid now (some d) sel vars ps
      = { selectionCache :=
            mapSet cid
              { timestamp := now, data := d.selection,
                nodeCount := d.nodeCount.getD 0 } sel,
          variablesCache := vars,
          pending := (match truthy d.requestId with
            | some rid => resolveIfPending rid d ps
            | none => (ps, [])).1,
          invocations := (match truthy d.requestId with
            | some rid => resolveIfPending rid d ps
            | none => (ps, [])).2,
          replies := [], analyzeRequested := none } := by
  have h1 : ¬ d.type = "ping" := by rw [htype]; decide
  simp [handleMessage, h1, htype]

/-- C5: an `operation-result` carrying a known correlation identifier
resolves the pending request with the full message on a true success flag
and rejects it with the carried error text (defaulting to the generic
`'Operation failed'`) on a false one, removing the entry and cancelling the
timer either way, while touching neither cache and sending no reply; with an
unknown or uncarried identifier the message is silently dropped with no
state change at all. -/
theorem operation_result_spec (cid : String) (now : Nat) (d : Msg)
    (sel : List (String × SelEntry)) (vars : List (String × VarEntry))
    (ps : PendingState) (htype : d.type = "operation-result") :
    (∀ rid, truthy d.requestId = some rid →
        (rid ∈ ps.pending →
            (handleMessage cid now (some d) sel vars ps).invocations
              = [{ reqId := rid,
                   outcome := if d.success then Outcome.resolved d
                              else Outcome.rejected (opResultErrorMsg d.error) }]
          ∧ rid ∉ (handleMessage cid now (some d) sel vars ps).pending.pending
          ∧ rid ∉ (handleMessage cid now (some d) sel vars ps).pending.armed
          ∧ (handleMessage cid now (some d) sel vars ps).selectionCache = sel
          ∧ (handleMessage cid now (some d) sel vars ps).variablesCache = vars
          ∧ (handleMessage cid now (some d) sel vars ps).replies = [])
      ∧ (rid ∉ ps.pending →
          handleMessage cid now (some d) sel vars ps = noEffect sel vars ps))
  ∧ (truthy d.requestId = none →
      handleMessage cid now (some d) sel vars ps = noEffect sel vars ps)
  ∧ opResultErrorMsg none = "Operation failed" := by
  rw [handleMessage_opResult cid now d sel vars ps htype]
  refine ⟨?_, ?_, rfl⟩
  · intro rid htr
    constructor
    · intro hmem
      refine ⟨?_, ?_, ?_, rfl, rfl, rfl⟩
      · simp [htr, settleIfPending, hmem]
      · simp [htr, settleIfPending, hmem, mem_eraseId]
      · simp [htr, settleIfPending, hmem, mem_eraseId]
    · intro habs
      simp [htr, settleIfPending, habs, noEffect]
  · intro htr
    simp [htr, noEffect]

/-- Concrete run of C5: a false success flag with error text `"boom"`
rejects the known pending request with exactly that reason. -/
theorem operation_result_spec_witness :
    (handleMessage "c1" 7
        (some
          { type := "operation-result", requestId := some "r1",
            success := false, error := some "boom" })
        [] [] { pending := ["r1"], armed := ["r1"] }).invocations
      = [{ reqId := "r1",
           outcome := Outcome.rejected (opResultErrorMsg (some "boom")) }] :=
  (((operation_result_spec "c1" 7
      { type := "operation-result", requestId := some "r1",
        success := false, error := some "boom" }
      [] [] { pending := ["r1"], armed := ["r1"] } rfl).1
    "r1" (by decide)).1 (by decide)).1

/-- C6: a `selection-data` message always overwrites the sender's selection
cache entry with a freshly-timestamped snapshot, whatever its correlation
identifier; if it additionally carries an identifier known to the table,
that request is resolved with the full message, and an unknown or uncarried
identifier leaves the table untouched. -/
theorem selection_data_spec (cid : String) (now : Nat) (d : Msg)
    (sel : List (String × SelEntry)) (vars : List (String × VarEntry))
    (ps : PendingState) (htype : d.type = "selection-data") :
    (handleMessage cid now (some d) sel vars ps).selectionCache
        = mapSet cid
            { timestamp := now, data := d.selection,
              nodeCount := d.nodeCount.getD 0 } sel
  ∧ mapGet cid (handleMessage cid now (some d) sel vars ps).selectionCache
        = some
            { timestamp := now, data := d.selection,
              nodeCount := d.nodeCount.getD 0 }
  ∧ (∀ rid, truthy d.requestId = some rid → rid ∈ ps.pending →
        (handleMessage cid now (some d) sel vars ps).invocations
          = [{ reqId := rid, outcome := Outcome.resolved d }]
      ∧ rid ∉ (handleMessage cid now (some d) sel vars ps).pending.pending
      ∧ rid ∉ (handleMessage cid now (some d) sel vars ps).pending.armed)
  ∧ (∀ rid, truthy d.requestId = some rid → rid ∉ ps.pending →
        (handleMessage cid now (some d) sel vars ps).pending = ps
      ∧ (handleMessage cid now (some d) sel vars ps).invocations = [])
  ∧ (truthy d.requestId = none →
        (handleMessage cid now (some d) sel vars ps).pending = ps
      ∧ (handleMessage cid now (some d) sel vars ps).invocations = []) := by
  rw [handleMessage_selData cid now d sel vars ps htype]
  refine ⟨rfl, mapGet_mapSet_self cid _ sel, ?_, ?_, ?_⟩
  · intro rid htr hmem
    refine ⟨?_, ?_, ?_⟩
    · simp [htr, resolveIfPending, hmem]
    · simp [htr, resolveIfPending, hmem, mem_eraseId]
    · simp [htr, resolveIfPending, hmem, mem_eraseId]
  · intro rid htr habs
    constructor <;> simp [htr, resolveIfPending, habs]
  · intro htr
    constructor <;> simp [htr]

/-- Concrete run of C6: a selection report with a known identifier resolves
it with the full report. -/
theorem selection_data_spec_witness :
    (handleMessage "c1" 7
        (some
          { type := "selection-data", requestId := some "r1",
            selection := "payload", nodeCount := some 2 })
        [] [] { pending := ["r1"], armed := ["r1"] }).invocations
      = [{ reqId := "r1",
           outcome :=
             Outcome.resolved
               { type := "selection-data", requestId := some "r1",
                 selection := "payload", nodeCount := some 2 } }] :=
  ((selection_data_spec "c1" 7
      { type := "selection-data", requestId := some "r1",
        selection := "payload", nodeCount := some 2 }
      [] [] { pending := ["r1"], armed := ["r1"] }
      rfl).2.2.1 "r1" (by decide) (by decide)).1

/-- C7: the selection read returns the explicit empty result on an empty
cache; otherwise the returned latest row is a stored row of maximal
timestamp and the returned list is exactly the stored rows ordered
newest-first and headed by the latest row; concretely, after storing A at 5
then B at 10, B is the latest, and after evicting B, A is. -/
theorem selection_read_spec (now : Nat) (cache : List (String × SelEntry)) :
    (cache = [] → getSelection now cache = SelectionResponse.empty)
  ∧ (∀ latest rest, getSelection now cache = SelectionResponse.filled latest rest →
        latest ∈ selViews now cache
      ∧ (∀ v ∈ selViews now cache, v.timestamp ≤ latest.timestamp)
      ∧ List.Perm rest (selViews now cache)
      ∧ List.Pairwise (fun a b => b.timestamp ≤ a.timestamp) rest
      ∧ rest.head? = some latest)
  ∧ (getSelection 20 (mapSet "B" { timestamp := 10, data := "selB", nodeCount := 2 }
        (mapSet "A" { timestamp := 5, data := "selA", nodeCount := 1 } []))
      = SelectionResponse.filled
          { clientId := "B", timestamp := 10, age := 10, nodeCount := 2, data := "selB" }
          [{ clientId := "B", timestamp := 10, age := 10, nodeCount := 2, data := "selB" },
           { clientId := "A", timestamp := 5, age := 15, nodeCount := 1, data := "selA" }])
  ∧ (getSelection 20 (mapDelete "B"
        (mapSet "B" { timestamp := 10, data := "selB", nodeCount := 2 }
          (mapSet "A" { timestamp := 5, data := "selA", nodeCount := 1 } [])))
      = SelectionResponse.filled
          { clientId := "A", timestamp := 5, age := 15, nodeCount := 1, data := "selA" }
          [{ clientId := "A", timestamp := 5, age := 15, nodeCount := 1, data := "selA" }]) := by
  refine ⟨?_, ?_, by decide, by decide⟩
  · intro h
    subst h
    rfl
  · intro latest rest h
    unfold getSelection at h
    rcases hs : sortByTsDesc (selViews now cache) with _ | ⟨x, xs⟩ <;> rw [hs] at h
    · cases h
    · injection h with h1 h2
      subst h1
      subst h2
      have hperm := hs ▸ sortByTsDesc_perm (selViews now cache)
      have hpair := hs ▸ sortByTsDesc_pairwise (selViews now cache)
      refine ⟨hperm.mem_iff.1 (List.mem_cons_self x xs), ?_, hperm, hpair, rfl⟩
      intro v hv
      rcases List.mem_cons.1 (hperm.symm.mem_iff.1 hv) with rfl | hv'
      · exact le_refl _
      · exact (List.pairwise_cons.1 hpair).1 v hv'

/-- Concrete runs of C7: the empty cache yields the empty result, and in the
two-entry cache the newest entry is a stored row of maximal timestamp. -/
theorem selection_read_spec_witness :
    getSelection 0 [] = SelectionResponse.empty
  ∧ ({ clientId := "B", timestamp := 10, age := 10, nodeCount := 2,
        data := "selB" } : SelView)
      ∈ selViews 20 (mapSet "B" { timestamp := 10, data := "selB", nodeCount := 2 }
          (mapSet "A" { timestamp := 5, data := "selA", nodeCount := 1 } [])) :=
  ⟨(selection_read_spec 0 []).1 rfl,
   ((selection_read_spec 20
      (mapSet "B" { timestamp := 10, data := "selB", nodeCount := 2 }
        (mapSet "A" { timestamp := 5, data := "selA", nodeCount := 1 } []))).2.1
      { clientId := "B", timestamp := 10, age := 10, nodeCount := 2, data := "selB" }
      [{ clientId := "B", timestamp := 10, age := 10, nodeCount := 2, data := "selB" },
       { clientId := "A", timestamp := 5, age := 15, nodeCount := 1, data := "selA" }]
      (by decide)).1⟩

/-- C8: closing connection C removes exactly C from the registry and C's
entries from both caches, leaves every other connection's registry
membership and cache entries unchanged, and leaves the correlation table
(with its timers) untouched — so C's disconnection alone rejects no pending
request. -/
theorem close_handler_spec (cid : String) (s : ServerState) :
    (∀ c : Conn, c ∈ (handleClose cid s).figmaClients
        ↔ (c ∈ s.figmaClients ∧ c.clientId ≠ cid))
  ∧ mapGet cid (handleClose cid s).selectionCache = none
  ∧ mapGet cid (handleClose cid s).variablesCache = none
  ∧ (∀ k, k ≠ cid →
        mapGet k (handleClose cid s).selectionCache = mapGet k s.selectionCache
      ∧ mapGet k (handleClose cid s).variablesCache = mapGet k s.variablesCache)
  ∧ (handleClose cid s).ps = s.ps := by
  refine ⟨?_, mapGet_mapDelete_self cid s.selectionCache,
    mapGet_mapDelete_self cid s.variablesCache, ?_, rfl⟩
  · intro c
    simp [handleClose, List.mem_filter]
  · intro k hk
    exact ⟨mapGet_mapDelete_other hk s.selectionCache,
      mapGet_mapDelete_other hk s.variablesCache⟩

/-- Concrete run of C8: disconnecting `c1` purges its selection entry, keeps
`c2`'s entry, and leaves the pending table with its armed timer intact. -/
theorem close_handler_spec_witness :
    mapGet "c1" (handleClose "c1"
        { figmaClients := [{ clientId := "c1", readyState := 1 }],
          selectionCache := [("c1", { timestamp := 5, data := "s", nodeCount := 1 }),
            ("c2", { timestamp := 6, data := "t", nodeCount := 2 })],
          variablesCache := [],
          ps := { pending := ["r9"], armed := ["r9"] } }).selectionCache = none
  ∧ mapGet "c2" (handleClose "c1"
        { figmaClients := [{ clientId := "c1", readyState := 1 }],
          selectionCache := [("c1", { timestamp := 5, data := "s", nodeCount := 1 }),
            ("c2", { timestamp := 6, data := "t", nodeCount := 2 })],
          variablesCache := [],
          ps := { pending := ["r9"], armed := ["r9"] } }).selectionCache
      = some { timestamp := 6, data := "t", nodeCount := 2 }
  ∧ (handleClose "c1"
        { figmaClients := [{ clientId := "c1", readyState := 1 }],
          selectionCache := [("c1", { timestamp := 5, data := "s", nodeCount := 1 }),
            ("c2", { timestamp := 6, data := "t", nodeCount := 2 })],
          variablesCache := [],
          ps := { pending := ["r9"], armed := ["r9"] } }).ps
      = { pending := ["r9"], armed := ["r9"] } :=
  ⟨(close_handler_spec "c1"
      { figmaClients := [{ clientId := "c1", readyState := 1 }],
        selectionCache := [("c1", { timestamp := 5, data := "s", nodeCount := 1 }),
          ("c2", { timestamp := 6, data := "t", nodeCount := 2 })],
        variablesCache := [],
        ps := { pending := ["r9"], armed := ["r9"] } }).2.1,
   (((close_handler_spec "c1"
      { figmaClients := [{ clientId := "c1", readyState := 1 }],
        selectionCache := [("c1", { timestamp := 5, data := "s", nodeCount := 1 }),
          ("c2", { timestamp := 6, data := "t", nodeCount := 2 })],
        variablesCache := [],
        ps := { pending := ["r9"], armed := ["r9"] } }).2.2.2.1 "c2"
      (by decide)).1).trans (by decide),
   (close_handler_spec "c1"
      { figmaClients := [{ clientId := "c1", readyState := 1 }],
        selectionCache := [("c1", { timestamp := 5, data := "s", nodeCount := 1 }),
          ("c2", { timestamp := 6, data := "t", nodeCount := 2 })],
        variablesCache := [],
        ps := { pending := ["r9"], armed := ["r9"] } }).2.2.2.2⟩

/-- C9: the dispatcher is a total function of the parse result; a parse
failure changes nothing and sends nothing, and a parsed message whose kind
matches none of the five recognized kinds is ignored with no state change
and no reply. -/
theorem handler_total_spec (cid : String) (now : Nat)
    (sel : List (String × SelEntry)) (vars : List (String × VarEntry))
    (ps : PendingState) :
    handleMessage cid now none sel vars ps = noEffect sel vars ps
  ∧ (∀ d : Msg, d.type ≠ "ping" → d.type ≠ "selection-data" →
      d.type ≠ "operation-result" → d.type ≠ "variables-data" →
      d.type ≠ "analyze-frames" →
      handleMessage cid now (some d) sel vars ps = noEffect sel vars ps) := by
  constructor
  · rfl
  · intro d h1 h2 h3 h4 h5
    simp [handleMessage, h1, h2, h3, h4, h5]

/-- Concrete run of C9: an unknown kind is dropped without effect. -/
theorem handler_total_spec_witness :
    handleMessage "c1" 7 (some { type := "mystery" }) [] []
        { pending := ["r1"], armed := ["r1"] }
      = noEffect [] [] { pending := ["r1"], armed := ["r1"] } :=
  (handler_total_spec "c1" 7 [] [] { pending := ["r1"], armed := ["r1"] }).2
    { type := "mystery" } (by decide) (by decide) (by decide) (by decide) (by decide)

/-- C10: on the three kinds both dispatchers recognize (`ping`,
`selection-data`, `operation-result`), the v3.0 and v5.5 dispatchers run the
same code: from identical prior selection-cache and correlation-table
states they send the same reply, leave the same selection cache, perform
the same resolve/reject invocations, leave the same pending table — and
v5.5's extra variables cache is untouched. -/
theorem dispatcher_v3_v55_equiv (cid : String) (now : Nat) (d : Msg)
    (sel : List (String × SelEntry)) (vars : List (String × VarEntry))
    (ps : PendingState)
    (h : d.type = "ping" ∨ d.type = "selection-data" ∨ d.type = "operation-result") :
    (handleMessage cid now (some d) sel vars ps).replies
        = (handleMessageV3 cid now (some d) sel ps).replies
  ∧ (handleMessage cid now (some d) sel vars ps).selectionCache
        = (handleMessageV3 cid now (some d) sel ps).selectionCache
  ∧ (handleMessage cid now (some d) sel vars ps).pending
        = (handleMessageV3 cid now (some d) sel ps).pending
  ∧ (handleMessage cid now (some d) sel vars ps).invocations
        = (handleMessageV3 cid now (some d) sel ps).invocations
  ∧ (handleMessage cid now (some d) sel vars ps).variablesCache = vars := by
  rcases h with h | h | h
  · simp [handleMessage, handleMessageV3, h, noEffect]
  · have h1 : ¬ d.type = "ping" := by rw [h]; decide
    simp [handleMessage, handleMessageV3, h, h1]
  · have h1 : ¬ d.type = "ping" := by rw [h]; decide
    have h2 : ¬ d.type = "selection-data" := by rw [h]; decide
    simp [handleMessage, handleMessageV3, h, h1, h2]

/-- Concrete run of C10: both dispatchers answer a ping with the same pong
and no other effect. -/
theorem dispatcher_v3_v55_equiv_witness :
    (handleMessage "c1" 7 (some { type := "ping" }) [] []
        { pending := [], armed := [] }).replies
      = (handleMessageV3 "c1" 7 (some { type := "ping" }) []
          { pending := [], armed := [] }).replies :=
  (dispatcher_v3_v55_equiv "c1" 7 { type := "ping" } [] []
    { pending := [], armed := [] } (Or.inl rfl)).1

end FigmaRelay
